import Mathlib

/-
  Shallow embedding of `src/midi.ts` (horita-yuya/tssmf): a zero-dependency
  Standard MIDI File parser plus tempo-map utilities.

  Bytes are modelled as `List Nat` (each entry 0..255, as produced by a
  `DataView` over the input buffer), the cursor offset as an explicit `Nat`
  threaded through every read, and every fallible operation returns
  `Except ParseErr _`.  JavaScript `throw new MidiParseError(msg, offset)`
  becomes `ParseErr.midiParseError msg offset`, `throw new Error(msg)`
  becomes `ParseErr.plainError msg`, and an out-of-bounds `DataView` access
  (which throws a `RangeError` in JavaScript) becomes
  `ParseErr.rangeError offset`.
-/

namespace Tssmf

/-- Error values observable from the parser.  `midiParseError` embeds the
`MidiParseError` class of `midi.ts` (message plus the `offset` field);
`plainError` embeds a bare `new Error(message)`; `rangeError` embeds the
`RangeError` the JavaScript runtime raises on an out-of-bounds `DataView`
access. -/
inductive ParseErr where
  | midiParseError (message : String) (offset : Nat)
  | plainError (message : String)
  | rangeError (offset : Nat)
  deriving Repr, DecidableEq

/-- True exactly for errors raised through the `MidiParseError` class, the
only errors that carry a byte offset. -/
def ParseErr.isMidiParseError : ParseErr → Bool
  | .midiParseError _ _ => true
  | _ => false

/-- Channel voice events, one constructor per `subtype` of the TS union
`ChannelEvent`. -/
inductive ChannelEvent where
  | noteOff (delta channel note velocity : Nat)
  | noteOn (delta channel note velocity : Nat)
  | polyAftertouch (delta channel note pressure : Nat)
  | controlChange (delta channel controller value : Nat)
  | programChange (delta channel program : Nat)
  | channelPressure (delta channel pressure : Nat)
  | pitchBend (delta channel : Nat) (value : Int)
  deriving Repr, DecidableEq

/-- Delta of a channel event (the `delta` field common to every variant of
the TS union). -/
def ChannelEvent.delta : ChannelEvent → Nat
  | .noteOff d _ _ _ => d
  | .noteOn d _ _ _ => d
  | .polyAftertouch d _ _ _ => d
  | .controlChange d _ _ _ => d
  | .programChange d _ _ => d
  | .channelPressure d _ _ => d
  | .pitchBend d _ _ => d

/-- The `timeSig` convenience payload of a meta event (0x58). -/
structure TimeSig where
  num : Nat
  den : Int
  metronome : Nat
  thirtyseconds : Nat
  deriving Repr, DecidableEq

/-- The `keySig` convenience payload of a meta event (0x59). -/
structure KeySig where
  sf : Int
  minor : Bool
  deriving Repr, DecidableEq

/-- Meta events: `metaType` and raw `data`, plus the optional convenience
fields `parseMetaEvent` fills in when the byte layout matches. -/
structure MetaEvent where
  delta : Nat
  metaType : Nat
  data : List Nat
  text : Option String
  tempoUsPerQuarter : Option Nat
  timeSig : Option TimeSig
  keySig : Option KeySig
  endOfTrack : Bool
  deriving Repr, DecidableEq

/-- SysEx events: `kind` is the status byte (0xF0 or 0xF7), `data` the
(possibly reassembled) payload. -/
structure SysExEvent where
  delta : Nat
  kind : Nat
  data : List Nat
  deriving Repr, DecidableEq

/-- The tagged union `MidiEvent = ChannelEvent | MetaEvent | SysExEvent`. -/
inductive MidiEvent where
  | channel (e : ChannelEvent)
  | meta (e : MetaEvent)
  | sysex (e : SysExEvent)
  deriving Repr, DecidableEq

/-- Delta ticks of any event. -/
def MidiEvent.delta : MidiEvent → Nat
  | .channel e => e.delta
  | .meta e => e.delta
  | .sysex e => e.delta

/-- A parsed track: its ordered event list. -/
structure MidiTrack where
  events : List MidiEvent
  deriving Repr, DecidableEq

/-- SMPTE timing information (`fps` already made absolute, `ticksPerFrame`). -/
structure Smpte where
  fps : Nat
  ticksPerFrame : Nat
  deriving Repr, DecidableEq

/-- The parsed document (`MidiFile` in the source). -/
structure MidiFile where
  format : Nat
  tracks : List MidiTrack
  ticksPerQuarter : Option Nat
  smpte : Option Smpte
  deriving Repr, DecidableEq

/-- The `TempoSource` string union. -/
inductive TempoSource where
  | all
  | track0
  | merge
  deriving Repr, DecidableEq

/-- A tempo-map breakpoint. -/
structure TempoPoint where
  tick : Nat
  usPerQuarter : Nat
  deriving Repr, DecidableEq

/-- Resolved parser options (the `Required<ParseOptions>` stored as
`this.opts`; the text-decoder list is modelled directly by `decodeText`). -/
structure ParseOptions where
  normalizeZeroVelocityNoteOn : Bool
  tempoSource : TempoSource
  deriving Repr, DecidableEq

/-- Caller-supplied options (each field optional, as in the TS interface). -/
structure ParseOptionsIn where
  normalizeZeroVelocityNoteOn : Option Bool
  tempoSource : Option TempoSource
  deriving Repr, DecidableEq

/-- The `options.x ?? default` resolution performed by the `MidiParser`
constructor. -/
def resolveOpts (o : ParseOptionsIn) : ParseOptions where
  normalizeZeroVelocityNoteOn := o.normalizeZeroVelocityNoteOn.getD true
  tempoSource := o.tempoSource.getD .track0

/-- Passing no options object (`parseMidi(input)`), so every field falls
back to its default. -/
def emptyOptions : ParseOptionsIn := ⟨none, none⟩

/-- Lower-case hexadecimal rendering, as `n.toString(16)` in JavaScript. -/
def toHex (n : Nat) : String := String.mk (Nat.toDigits 16 n)

/-- Direct `DataView.getUint8` access with no prior `ensureAvailable` call:
succeeds when the offset is in bounds, otherwise raises the runtime
`RangeError`.  Used to model the status-byte peek in `parseTrack`, the one
read in the source that bypasses `ensureAvailable`. -/
def viewGetUint8 (bytes : List Nat) (offset : Nat) : Except ParseErr Nat :=
  match bytes.get? offset with
  | some b => .ok b
  | none => .error (.rangeError offset)

/-- The bounds check `ensureAvailable(n)`: fails with the offset-carrying
`MidiParseError` when fewer than `n` bytes remain. -/
def ensureAvailable (bytes : List Nat) (offset n : Nat) : Except ParseErr Unit :=
  let remaining := bytes.length - offset
  if n > remaining then
    .error (.midiParseError ("Unexpected EOF: need " ++ toString n ++ " bytes") offset)
  else
    .ok ()

/-- Function `readUint8`: bounds-checked single-byte read, advancing the offset. -/
def readUint8 (bytes : List Nat) (offset : Nat) : Except ParseErr (Nat × Nat) :=
  match ensureAvailable bytes offset 1 with
  | .error e => .error e
  | .ok _ => .ok (bytes.getD offset 0, offset + 1)

/-- Function `readUint16`: bounds-checked big-endian 16-bit read. -/
def readUint16 (bytes : List Nat) (offset : Nat) : Except ParseErr (Nat × Nat) :=
  match ensureAvailable bytes offset 2 with
  | .error e => .error e
  | .ok _ => .ok (bytes.getD offset 0 * 256 + bytes.getD (offset + 1) 0, offset + 2)

/-- Function `readUint32`: bounds-checked big-endian 32-bit read. -/
def readUint32 (bytes : List Nat) (offset : Nat) : Except ParseErr (Nat × Nat) :=
  match ensureAvailable bytes offset 4 with
  | .error e => .error e
  | .ok _ =>
    .ok (bytes.getD offset 0 * 16777216 + bytes.getD (offset + 1) 0 * 65536 +
         bytes.getD (offset + 2) 0 * 256 + bytes.getD (offset + 3) 0, offset + 4)

/-- Function `readBytes(length)`: bounds-checked slice read. -/
def readBytes (bytes : List Nat) (offset length : Nat) :
    Except ParseErr (List Nat × Nat) :=
  match ensureAvailable bytes offset length with
  | .error e => .error e
  | .ok _ => .ok ((bytes.drop offset).take length, offset + length)

/-- Bytes rendered as a JavaScript string via `String.fromCharCode`, the
common core of `readFourCC` and `readString`. -/
def bytesToString (bs : List Nat) : String := String.mk (bs.map Char.ofNat)

/-- Function `readFourCC`: four bytes as an ASCII tag. -/
def readFourCC (bytes : List Nat) (offset : Nat) : Except ParseErr (String × Nat) :=
  match readBytes bytes offset 4 with
  | .error e => .error e
  | .ok (bs, o) => .ok (bytesToString bs, o)

/-- Function `readString(length)`: delegates to `readFourCC` for length 4, otherwise
reads the bytes and converts char-by-char (both paths agree in this model). -/
def readString (bytes : List Nat) (offset length : Nat) :
    Except ParseErr (String × Nat) :=
  if length = 4 then readFourCC bytes offset
  else
    match readBytes bytes offset length with
    | .error e => .error e
    | .ok (bs, o) => .ok (bytesToString bs, o)

/-- One evaluation step of the loop body of `readVariableLengthQuantity`,
with `i` the number of loop iterations still allowed (the source caps the
loop at 4 iterations). -/
def readVLQaux (bytes : List Nat) : Nat → Nat → Nat → Except ParseErr (Nat × Nat)
  | 0, offset, _ =>
    .error (.midiParseError ("VLQ too long (over 4 bytes)") offset)
  | i + 1, offset, value =>
    match readUint8 bytes offset with
    | .error e => .error e
    | .ok (byte, o) =>
      let value' := (value <<< 7) ||| (byte &&& 0x7f)
      if byte &&& 0x80 = 0 then .ok (value', o)
      else readVLQaux bytes i o value'

/-- Function `readVariableLengthQuantity`: up to 4 bytes of 7-bit groups, failing
with the VLQ-too-long `MidiParseError` when all 4 have the continuation
bit set. -/
def readVariableLengthQuantity (bytes : List Nat) (offset : Nat) :
    Except ParseErr (Nat × Nat) :=
  readVLQaux bytes 4 offset 0

/-- Function `parseHeader`: validates the `MThd` tag and the fixed header length 6,
rejects formats outside 0..2, then reads track count and division.
Returns `(format, numTracks, division)` plus the new offset. -/
def parseHeader (bytes : List Nat) (offset : Nat) :
    Except ParseErr ((Nat × Nat × Nat) × Nat) := do
  let (headerType, o) ← readString bytes offset 4
  if headerType ≠ "MThd" then
    throw (.plainError ("Invalid MIDI file: missing MThd header"))
  let (headerLength, o) ← readUint32 bytes o
  if headerLength ≠ 6 then
    throw (.plainError ("Invalid MIDI header length"))
  let (format, o) ← readUint16 bytes o
  if format ≠ 0 ∧ format ≠ 1 ∧ format ≠ 2 then
    throw (.plainError ("Unsupported MIDI format: " ++ toString format))
  let (numTracks, o) ← readUint16 bytes o
  let (division, o) ← readUint16 bytes o
  return ((format, numTracks, division), o)

/-- Function `parseChannelEvent`: dispatch on `(statusByte & 0xF0) >> 4`, reading
the per-subtype data bytes.  In the Note-On branch a zero velocity is
rewritten to a `noteOff` with velocity 64 when the
`normalizeZeroVelocityNoteOn` option is on. -/
def parseChannelEvent (bytes : List Nat) (offset : Nat) (opts : ParseOptions)
    (delta statusByte : Nat) : Except ParseErr (ChannelEvent × Nat) :=
  let channel := statusByte &&& 0x0f
  let eventType := (statusByte &&& 0xf0) >>> 4
  match eventType with
  | 0x8 =>
    match readUint8 bytes offset with
    | .error e => .error e
    | .ok (note, o) =>
      match readUint8 bytes o with
      | .error e => .error e
      | .ok (velocity, o) => .ok (.noteOff delta channel note velocity, o)
  | 0x9 =>
    match readUint8 bytes offset with
    | .error e => .error e
    | .ok (note, o) =>
      match readUint8 bytes o with
      | .error e => .error e
      | .ok (velocity, o) =>
        if opts.normalizeZeroVelocityNoteOn ∧ velocity = 0 then
          .ok (.noteOff delta channel note 64, o)
        else
          .ok (.noteOn delta channel note velocity, o)
  | 0xa =>
    match readUint8 bytes offset with
    | .error e => .error e
    | .ok (note, o) =>
      match readUint8 bytes o with
      | .error e => .error e
      | .ok (pressure, o) => .ok (.polyAftertouch delta channel note pressure, o)
  | 0xb =>
    match readUint8 bytes offset with
    | .error e => .error e
    | .ok (controller, o) =>
      match readUint8 bytes o with
      | .error e => .error e
      | .ok (value, o) => .ok (.controlChange delta channel controller value, o)
  | 0xc =>
    match readUint8 bytes offset with
    | .error e => .error e
    | .ok (program, o) => .ok (.programChange delta channel program, o)
  | 0xd =>
    match readUint8 bytes offset with
    | .error e => .error e
    | .ok (pressure, o) => .ok (.channelPressure delta channel pressure, o)
  | 0xe =>
    match readUint8 bytes offset with
    | .error e => .error e
    | .ok (lsb, o) =>
      match readUint8 bytes o with
      | .error e => .error e
      | .ok (msb, o) =>
        .ok (.pitchBend delta channel ((msb <<< 7 ||| lsb : Nat) - 8192 : Int), o)
  | _ =>
    .error (.plainError ("Unknown channel event type: 0x" ++ toHex eventType))

/-- Function `decodeText`: the default decoder list starts with `latin1`, whose
`decode` never throws, so the model maps each byte to its code point. -/
def decodeText (bs : List Nat) : String := String.mk (bs.map Char.ofNat)

/-- JavaScript `1 << k` on a 32-bit signed integer: the shift count is
masked to 5 bits and a shift by 31 lands on the sign bit.  Used for the
time-signature denominator `1 << data[1]`. -/
def jsShlOne (k : Nat) : Int :=
  if k % 32 = 31 then -2147483648 else ((1 <<< (k % 32) : Nat) : Int)

/-- Function `parseMetaEvent`: type byte, VLQ length, raw data, plus the
convenience fields filled only when the byte layout matches exactly. -/
def parseMetaEvent (bytes : List Nat) (offset : Nat) (delta : Nat) :
    Except ParseErr (MetaEvent × Nat) := do
  let (metaType, o) ← readUint8 bytes offset
  let (length, o) ← readVariableLengthQuantity bytes o
  let (data, o) ← readBytes bytes o length
  let text :=
    if 0x01 ≤ metaType ∧ metaType ≤ 0x07 then some (decodeText data) else none
  let tempoUsPerQuarter :=
    if metaType = 0x51 ∧ length = 3 then
      some ((data.getD 0 0 <<< 16) ||| (data.getD 1 0 <<< 8) ||| data.getD 2 0)
    else none
  let timeSig :=
    if metaType = 0x58 ∧ length = 4 then
      some (TimeSig.mk (data.getD 0 0) (jsShlOne (data.getD 1 0))
        (data.getD 2 0) (data.getD 3 0))
    else none
  let keySig :=
    if metaType = 0x59 ∧ length = 2 then
      some (KeySig.mk
        (if data.getD 0 0 > 127 then (data.getD 0 0 : Int) - 256 else (data.getD 0 0 : Int))
        (data.getD 1 0 = 1))
    else none
  let endOfTrack := metaType = 0x2f
  return (MetaEvent.mk delta metaType data text tempoUsPerQuarter timeSig keySig endOfTrack, o)

/-- Function `parseSysExEvent`: VLQ length then payload.  A 0xF0 start replaces the
pending buffer with its payload; a 0xF7 continuation concatenates the
pending buffer (when present) with its payload.  The second component of
the result models the `__pendingSyx` field `parseTrack` reads back off the
event. -/
def parseSysExEvent (bytes : List Nat) (offset : Nat) (delta statusByte : Nat)
    (pending : Option (List Nat)) :
    Except ParseErr ((SysExEvent × Option (List Nat)) × Nat) := do
  let (length, o) ← readVariableLengthQuantity bytes offset
  let (payload, o) ← readBytes bytes o length
  let combined :=
    if statusByte = 0xf0 then payload
    else if statusByte = 0xf7 then
      match pending with
      | some p => p ++ payload
      | none => payload
    else payload
  let nextPending :=
    if statusByte = 0xf0 then some payload
    else if statusByte = 0xf7 then some combined
    else none
  return ((SysExEvent.mk delta statusByte combined, nextPending), o)

/-- Function `parseEvent`: dispatch on the effective status byte.  The second
component of a successful result is the `__pendingSyx` value attached to
SysEx events (and `none` for every other event kind). -/
def parseEvent (bytes : List Nat) (offset : Nat) (opts : ParseOptions)
    (delta statusByte : Nat) (pending : Option (List Nat)) :
    Except ParseErr ((MidiEvent × Option (List Nat)) × Nat) :=
  if 0x80 ≤ statusByte ∧ statusByte ≤ 0xef then
    match parseChannelEvent bytes offset opts delta statusByte with
    | .error e => .error e
    | .ok (e, o) => .ok ((.channel e, none), o)
  else if statusByte = 0xff then
    match parseMetaEvent bytes offset delta with
    | .error e => .error e
    | .ok (e, o) => .ok ((.meta e, none), o)
  else if statusByte = 0xf0 ∨ statusByte = 0xf7 then
    match parseSysExEvent bytes offset delta statusByte pending with
    | .error e => .error e
    | .ok ((e, nextPending), o) => .ok ((.sysex e, nextPending), o)
  else
    .error (.plainError ("Unsupported event status: 0x" ++ toHex statusByte))

/-- The End-of-Track test `ev.type === "meta" && ev.metaType === 0x2f`
that terminates the track loop. -/
def isEndOfTrack : MidiEvent → Bool
  | .meta m => m.metaType = 0x2f
  | _ => false

/-- The `pendingSysEx` update after an event: SysEx events hand their
attached continuation buffer on, every other event clears it. -/
def nextPendingAfter (ev : MidiEvent) (attached : Option (List Nat)) :
    Option (List Nat) :=
  match ev with
  | .sysex _ => attached
  | _ => none

/-- One iteration of the `parseTrack` loop body: read the VLQ delta, peek
the next byte directly off the view (the source performs this read with
`this.view.getUint8` and no `ensureAvailable`), resolve running status,
parse the event.  Returns the event together with the new offset, running
status and pending-SysEx buffer. -/
def trackBody (bytes : List Nat) (opts : ParseOptions) (offset : Nat)
    (runningStatus : Option Nat) (pending : Option (List Nat)) :
    Except ParseErr (MidiEvent × Nat × Option Nat × Option (List Nat)) := do
  let (delta, o) ← readVariableLengthQuantity bytes offset
  let peek ← viewGetUint8 bytes o
  let (statusByte, o, runningStatus') ←
    if peek < 0x80 then
      match runningStatus with
      | none =>
        throw (ParseErr.plainError ("Running status used without previous status"))
      | some s => pure ((s, o, runningStatus) : Nat × Nat × Option Nat)
    else
      pure ((peek, o + 1, if peek < 0xf0 then some peek else runningStatus) :
        Nat × Nat × Option Nat)
  let ((ev, attached), o) ← parseEvent bytes o opts delta statusByte pending
  return (ev, o, runningStatus', nextPendingAfter ev attached)

/-- The `while (this.offset < trackEnd)` loop of `parseTrack`, with a fuel
parameter for structural recursion.  Each iteration consumes at least the
one delta byte, so with fuel at least `trackEnd - offset` the base case is
reached only when `offset < trackEnd` fails, exactly as in the source
(`trackLoop_fuel_sufficient` below makes this precise). -/
def trackLoop (bytes : List Nat) (opts : ParseOptions) (trackEnd : Nat) :
    Nat → Nat → Option Nat → Option (List Nat) → List MidiEvent →
    Except ParseErr (List MidiEvent × Nat)
  | 0, offset, _, _, events => .ok (events, offset)
  | fuel + 1, offset, runningStatus, pending, events =>
    if offset < trackEnd then
      match trackBody bytes opts offset runningStatus pending with
      | .error e => .error e
      | .ok (ev, o, runningStatus', pending') =>
        if isEndOfTrack ev then .ok (events ++ [ev], o)
        else trackLoop bytes opts trackEnd fuel o runningStatus' pending' (events ++ [ev])
    else .ok (events, offset)

/-- Function `parseTrack`: validate the `MTrk` tag, read the 32-bit declared
length, then run the event loop up to `trackEnd` with running status and
pending SysEx reset.  Returns the track and the offset where parsing
stopped. -/
def parseTrack (bytes : List Nat) (opts : ParseOptions) (offset : Nat) :
    Except ParseErr (MidiTrack × Nat) := do
  let (trackType, o) ← readString bytes offset 4
  if trackType ≠ "MTrk" then
    throw (.plainError ("Invalid track chunk: missing MTrk header"))
  let (trackLength, o) ← readUint32 bytes o
  let trackEnd := o + trackLength
  let (events, o) ← trackLoop bytes opts trackEnd (trackLength + 1) o none none []
  return (MidiTrack.mk events, o)

/-- The `for (let i = 0; i < numTracks; i++)` loop of `parse`. -/
def parseTracks (bytes : List Nat) (opts : ParseOptions) :
    Nat → Nat → Except ParseErr (List MidiTrack × Nat)
  | 0, offset => .ok ([], offset)
  | n + 1, offset => do
    let (t, o) ← parseTrack bytes opts offset
    let (ts, o) ← parseTracks bytes opts n o
    return (t :: ts, o)

/-- Method `MidiParser.parse`: header, division decoding (SMPTE when bit 15 of
the division is set, PPQ otherwise), then all declared tracks. -/
def parse (bytes : List Nat) (opts : ParseOptions) : Except ParseErr MidiFile := do
  let ((format, numTracks, division), o) ← parseHeader bytes 0
  let ticksPerQuarter : Option Nat :=
    if division &&& 0x8000 ≠ 0 then none else some division
  let smpte : Option Smpte :=
    if division &&& 0x8000 ≠ 0 then
      let fpsRaw := (division >>> 8) &&& 0xff
      let fps : Int := if fpsRaw > 127 then (fpsRaw : Int) - 256 else (fpsRaw : Int)
      some (Smpte.mk fps.natAbs (division &&& 0xff))
    else none
  let (tracks, _) ← parseTracks bytes opts numTracks o
  return (MidiFile.mk format tracks ticksPerQuarter smpte)

/-- Function `parseMidi(input, opts)`: construct the parser (resolving option
defaults) and parse. -/
def parseMidi (bytes : List Nat) (options : ParseOptionsIn) :
    Except ParseErr MidiFile :=
  parse bytes (resolveOpts options)

/-- Calling `parseMidi(input)` with no options argument. -/
def parseMidiDefault (bytes : List Nat) : Except ParseErr MidiFile :=
  parseMidi bytes emptyOptions

/-- The `pushFromTrack` closure of `buildTempoMap`: walk a track keeping a
running absolute tick, collecting a point for every meta event of type
0x51 whose `tempoUsPerQuarter` field is truthy (present and non-zero). -/
def tempoPointsOfTrack (t : MidiTrack) : List TempoPoint :=
  (t.events.foldl
    (fun (st : Nat × List TempoPoint) ev =>
      let abs := st.1 + ev.delta
      match ev with
      | .meta m =>
        match m.tempoUsPerQuarter with
        | some us =>
          if m.metaType = 0x51 ∧ us ≠ 0 then (abs, st.2 ++ [TempoPoint.mk abs us])
          else (abs, st.2)
        | none => (abs, st.2)
      | _ => (abs, st.2))
    (0, [])).2

/-- The `points.sort((a, b) => a.tick - b.tick)` call: a stable sort by
tick (JavaScript `Array.prototype.sort` is specified stable). -/
def sortByTick (ps : List TempoPoint) : List TempoPoint :=
  ps.insertionSort (fun a b => a.tick ≤ b.tick)

/-- The same-tick merge loop of `buildTempoMap`: scanning in order, a
point at the tick of the previously kept point overwrites that point's
tempo (later wins). -/
def mergeSameTick (ps : List TempoPoint) : List TempoPoint :=
  ps.foldl
    (fun out p =>
      match out.getLast? with
      | some last =>
        if last.tick = p.tick then out.dropLast ++ [TempoPoint.mk last.tick p.usPerQuarter]
        else out ++ [p]
      | none => out ++ [p])
    []

/-- The tail of `buildTempoMap` after point collection: sort, merge
same-tick points, and prepend the default tempo `(0, 500000)` when no
point sits at tick 0. -/
def finishTempoMap (points : List TempoPoint) : List TempoPoint :=
  let out := mergeSameTick (sortByTick points)
  match out.head? with
  | none => [TempoPoint.mk 0 500000]
  | some p => if p.tick ≠ 0 then TempoPoint.mk 0 500000 :: out else out

/-- Function `buildTempoMap(midi, source)`: select the contributing tracks from the
document format and the `source` argument, then sort, merge and default. -/
def buildTempoMap (midi : MidiFile) (source : TempoSource) : List TempoPoint :=
  let points : List TempoPoint :=
    if midi.format = 1 then
      if source = TempoSource.track0 then
        match midi.tracks.head? with
        | some t => tempoPointsOfTrack t
        | none => []
      else if source = TempoSource.all ∨ source = TempoSource.merge then
        (midi.tracks.map tempoPointsOfTrack).flatten
      else []
    else if midi.format = 0 then
      (midi.tracks.map tempoPointsOfTrack).flatten
    else if midi.format = 2 then
      match midi.tracks.head? with
      | some t => tempoPointsOfTrack t
      | none => []
    else []
  finishTempoMap points

/-- Calling `buildTempoMap(midi)` with the `source` parameter left to its default
value `"all"`. -/
def buildTempoMapDefault (midi : MidiFile) : List TempoPoint :=
  buildTempoMap midi TempoSource.all

/-- Errors of `ticksToMs_PPQ`, one constructor per throw site:
`invalidPpq` for `PPQ must be > 0`, `emptyTempoMap` for
`Tempo map is empty`. -/
inductive TickErr where
  | invalidPpq
  | emptyTempoMap
  deriving Repr, DecidableEq

/-- The segment-integration loop of `ticksToMs_PPQ`, over exact rationals
(the JavaScript float arithmetic is exact on the integral inputs the
claims exercise).  State: the list tail, `cursorTick` and `totalMs`. -/
def ticksToMsLoop (tick ppq : ℚ) : List TempoPoint → ℚ → ℚ → ℚ
  | [], _, totalMs => totalMs
  | cur :: rest, cursorTick, totalMs =>
    let segStart : ℚ := max cursorTick (cur.tick : ℚ)
    let segEnd : ℚ :=
      match rest.head? with
      | some next => min (next.tick : ℚ) tick
      | none => tick
    let st : ℚ × ℚ :=
      if segEnd > segStart ∧ segStart < tick then
        (totalMs + (segEnd - segStart) * (cur.usPerQuarter : ℚ) / (ppq * 1000), segEnd)
      else (totalMs, cursorTick)
    if st.2 ≥ tick then st.1
    else ticksToMsLoop tick ppq rest st.2 st.1

/-- Function `ticksToMs_PPQ(tick, tempoMap, ppq)`: reject non-positive `ppq`, then
an empty map, then integrate the piecewise-constant tempo segments. -/
def ticksToMs_PPQ (tick : ℚ) (tempoMap : List TempoPoint) (ppq : ℚ) :
    Except TickErr ℚ :=
  if ppq ≤ 0 then .error .invalidPpq
  else if tempoMap.length = 0 then .error .emptyTempoMap
  else .ok (ticksToMsLoop tick ppq tempoMap 0 0)

/-- Header bytes of a format-0, single-track, 480-PPQ file, shared by the
concrete parse examples below. -/
def headerBytes : List Nat :=
  [0x4d, 0x54, 0x68, 0x64, 0, 0, 0, 6, 0, 0, 0, 1, 0x01, 0xe0]

/-- The End-of-Track meta event as `parseMetaEvent` produces it. -/
def eotEvent : MetaEvent := MetaEvent.mk 0 0x2f [] none none none none true

/-- A file whose single track holds a Note-On with velocity 0 followed by
End-of-Track. -/
def c1Bytes : List Nat :=
  headerBytes ++
  [0x4d, 0x54, 0x72, 0x6b, 0, 0, 0, 8,
   0x00, 0x90, 0x40, 0x00, 0x00, 0xff, 0x2f, 0x00]

/-- A file whose single track chunk declares length 0 and carries no event
bytes. -/
def c4Bytes : List Nat := headerBytes ++ [0x4d, 0x54, 0x72, 0x6b, 0, 0, 0, 0]

/-- A file whose track chunk declares 4 bytes but supplies only the one
delta byte, so that the status peek lands past the end of the buffer. -/
def c3Bytes : List Nat := headerBytes ++ [0x4d, 0x54, 0x72, 0x6b, 0, 0, 0, 4, 0x00]

/-- A header whose magic tag reads `MThe` instead of `MThd`. -/
def c9BadMagicBytes : List Nat :=
  [0x4d, 0x54, 0x68, 0x65, 0, 0, 0, 6, 0, 0, 0, 1, 0x01, 0xe0]

/-- A header whose declared length is 8 instead of 6. -/
def c9BadLengthBytes : List Nat :=
  [0x4d, 0x54, 0x68, 0x64, 0, 0, 0, 8, 0, 0, 0, 1, 0x01, 0xe0, 0, 0]

/-- A header declaring the unsupported format 3. -/
def c9Format3Bytes : List Nat :=
  [0x4d, 0x54, 0x68, 0x64, 0, 0, 0, 6, 0, 3, 0, 1, 0x01, 0xe0]

/-- A file whose track chunk tag reads `MTrl` instead of `MTrk`. -/
def c9BadTrackMagicBytes : List Nat :=
  headerBytes ++ [0x4d, 0x54, 0x72, 0x6c, 0, 0, 0, 4, 0x00, 0xff, 0x2f, 0x00]

/-- A file whose first track event carries the reserved status byte
0xF1. -/
def c9StatusF1Bytes : List Nat :=
  headerBytes ++
  [0x4d, 0x54, 0x72, 0x6b, 0, 0, 0, 8,
   0x00, 0xf1, 0x40, 0x7f, 0x00, 0xff, 0x2f, 0x00]

/-- A file whose first track event starts with a data byte and no prior
status. -/
def c9NoStatusBytes : List Nat :=
  headerBytes ++
  [0x4d, 0x54, 0x72, 0x6b, 0, 0, 0, 7,
   0x00, 0x30, 0x44, 0x00, 0xff, 0x2f, 0x00]

/-- A file whose first delta time is a VLQ of five continuation bytes. -/
def c9VlqTooLongBytes : List Nat :=
  headerBytes ++
  [0x4d, 0x54, 0x72, 0x6b, 0, 0, 0, 8,
   0x80, 0x80, 0x80, 0x80, 0x80, 0xff, 0x2f, 0x00]

/-- A file whose single track is an 0xF0 SysEx fragment `[0x43, 0x12]`
followed immediately by an 0xF7 fragment `[0x00, 0x43, 0xF7]`, then
End-of-Track. -/
def c7Bytes : List Nat :=
  headerBytes ++
  [0x4d, 0x54, 0x72, 0x6b, 0, 0, 0, 15,
   0x00, 0xf0, 0x02, 0x43, 0x12,
   0x00, 0xf7, 0x03, 0x00, 0x43, 0xf7,
   0x00, 0xff, 0x2f, 0x00]

/-- A file whose track is `0x90 0x40 0x7F` followed by the running-status
bytes `0x30 0x44` and then `0x60 0xFF 0x2F 0x00` (delta 0x60 before
End-of-Track). -/
def c8Bytes : List Nat :=
  headerBytes ++
  [0x4d, 0x54, 0x72, 0x6b, 0, 0, 0, 11,
   0x00, 0x90, 0x40, 0x7f,
   0x00, 0x30, 0x44,
   0x60, 0xff, 0x2f, 0x00]

/-- A file whose track opens with the data byte 0x30 before any status
byte has been established. -/
def c8NoContextBytes : List Nat :=
  headerBytes ++
  [0x4d, 0x54, 0x72, 0x6b, 0, 0, 0, 7,
   0x00, 0x30, 0x44, 0x00, 0xff, 0x2f, 0x00]

/-- A Set-Tempo meta event (0x51) for 400000 µs per quarter, as
`parseMetaEvent` produces it from the payload `[0x06, 0x1A, 0x80]`. -/
def tempoMeta400 : MetaEvent :=
  MetaEvent.mk 0 0x51 [0x06, 0x1a, 0x80] none (some 400000) none none false

/-- A format-1 document whose track 0 has no tempo event and whose track 1
sets 400000 µs per quarter at tick 0. -/
def exFmt1 : MidiFile :=
  MidiFile.mk 1
    [MidiTrack.mk [MidiEvent.meta eotEvent],
     MidiTrack.mk [MidiEvent.meta tempoMeta400, MidiEvent.meta eotEvent]]
    (some 480) none

/-! Supporting lemmas. -/

/-- A successful `readUint8` advances the offset by exactly one. -/
theorem readUint8_ok_offset {bytes : List Nat} {off b o : Nat}
    (h : readUint8 bytes off = .ok (b, o)) : o = off + 1 := by
  unfold readUint8 at h
  cases ha : ensureAvailable bytes off 1 <;> rw [ha] at h
  · exact Except.noConfusion h
  · injection h with h'
    exact ((Prod.mk.injEq _ _ _ _ ▸ h').2).symm

/-- A successful VLQ-loop run strictly advances the offset. -/
theorem readVLQaux_offset_lt {bytes : List Nat} :
    ∀ {i off v d o}, readVLQaux bytes i off v = .ok (d, o) → off < o := by
  intro i
  induction i with
  | zero => intro off v d o h; exact Except.noConfusion h
  | succ i ih =>
    intro off v d o h
    unfold readVLQaux at h
    cases hb : readUint8 bytes off with
    | error e => rw [hb] at h; exact Except.noConfusion h
    | ok p =>
      obtain ⟨byte, o₁⟩ := p
      rw [hb] at h
      dsimp only at h
      have ho₁ : o₁ = off + 1 := readUint8_ok_offset hb
      by_cases hc : byte &&& 0x80 = 0
      · rw [if_pos hc] at h
        injection h with h'
        have : o₁ = o := (Prod.mk.injEq _ _ _ _ ▸ h').2
        omega
      · rw [if_neg hc] at h
        have := ih h
        omega

/-- A successful `readVariableLengthQuantity` strictly advances the
offset (every VLQ consumes at least one byte). -/
theorem readVLQ_offset_lt {bytes : List Nat} {off d o : Nat}
    (h : readVariableLengthQuantity bytes off = .ok (d, o)) : off < o :=
  readVLQaux_offset_lt h

/-- A successful `readBytes` advances the offset by the requested length. -/
theorem readBytes_ok_offset {bytes : List Nat} {off n : Nat} {bs : List Nat} {o : Nat}
    (h : readBytes bytes off n = .ok (bs, o)) : o = off + n := by
  unfold readBytes at h
  cases ha : ensureAvailable bytes off n <;> rw [ha] at h
  · exact Except.noConfusion h
  · injection h with h'
    exact ((Prod.mk.injEq _ _ _ _ ▸ h').2).symm

/-- Helper: `readUint8` either errors or returns its byte at offset plus one. -/
theorem readUint8_shape (bytes : List Nat) (off : Nat) :
    (∃ e, readUint8 bytes off = .error e) ∨
    (∃ b, readUint8 bytes off = .ok (b, off + 1)) := by
  unfold readUint8
  cases ensureAvailable bytes off 1
  · exact .inl ⟨_, rfl⟩
  · exact .inr ⟨_, rfl⟩

/-- A successful `parseChannelEvent` never moves the offset backwards. -/
theorem parseChannelEvent_offset_le {bytes : List Nat} {off : Nat}
    {opts : ParseOptions} {d sb : Nat} {e : ChannelEvent} {o : Nat}
    (h : parseChannelEvent bytes off opts d sb = .ok (e, o)) : off ≤ o := by
  unfold parseChannelEvent at h
  dsimp only at h
  rcases readUint8_shape bytes off with ⟨e1, h1⟩ | ⟨b1, h1⟩ <;>
    rw [h1] at h <;> dsimp only at h
  · split at h <;> exact Except.noConfusion h
  · rcases readUint8_shape bytes (off + 1) with ⟨e2, h2⟩ | ⟨b2, h2⟩ <;>
      rw [h2] at h <;> dsimp only at h
    · split at h <;>
        first
          | exact Except.noConfusion h
          | (injection h with h'
             have ho := (Prod.mk.injEq _ _ _ _ ▸ h').2
             omega)
    · split at h <;>
        first
          | exact Except.noConfusion h
          | (injection h with h'
             have ho := (Prod.mk.injEq _ _ _ _ ▸ h').2
             omega)
          | (split at h <;>
              (injection h with h'
               have ho := (Prod.mk.injEq _ _ _ _ ▸ h').2
               omega))

/-- Helper: `readBytes` either errors or returns a slice at offset plus length. -/
theorem readBytes_shape (bytes : List Nat) (off n : Nat) :
    (∃ e, readBytes bytes off n = .error e) ∨
    (∃ bs, readBytes bytes off n = .ok (bs, off + n)) := by
  unfold readBytes
  cases ensureAvailable bytes off n
  · exact .inl ⟨_, rfl⟩
  · exact .inr ⟨_, rfl⟩

/-- A successful `parseMetaEvent` never moves the offset backwards. -/
theorem parseMetaEvent_offset_le {bytes : List Nat} {off d : Nat}
    {m : MetaEvent} {o : Nat}
    (h : parseMetaEvent bytes off d = .ok (m, o)) : off ≤ o := by
  unfold parseMetaEvent at h
  rcases readUint8_shape bytes off with ⟨e1, h1⟩ | ⟨b1, h1⟩ <;>
    rw [h1] at h <;> simp only [bind, Except.bind] at h
  · exact Except.noConfusion h
  cases h2 : readVariableLengthQuantity bytes (off + 1) with
  | error e2 => rw [h2] at h; exact Except.noConfusion h
  | ok p2 =>
    obtain ⟨len, o2⟩ := p2
    rw [h2] at h
    simp only [bind, Except.bind] at h
    have hlt := readVLQ_offset_lt h2
    rcases readBytes_shape bytes o2 len with ⟨e3, h3⟩ | ⟨bs, h3⟩ <;>
      rw [h3] at h <;> simp only [bind, Except.bind, pure, Except.pure] at h
    · exact Except.noConfusion h
    · injection h with h'
      have ho := (Prod.mk.injEq _ _ _ _ ▸ h').2
      omega

/-- A successful `parseSysExEvent` never moves the offset backwards. -/
theorem parseSysExEvent_offset_le {bytes : List Nat} {off d sb : Nat}
    {pending : Option (List Nat)} {r : SysExEvent × Option (List Nat)} {o : Nat}
    (h : parseSysExEvent bytes off d sb pending = .ok (r, o)) : off ≤ o := by
  unfold parseSysExEvent at h
  cases h1 : readVariableLengthQuantity bytes off with
  | error e1 => rw [h1] at h; exact Except.noConfusion h
  | ok p1 =>
    obtain ⟨len, o1⟩ := p1
    rw [h1] at h
    simp only [bind, Except.bind] at h
    have hlt := readVLQ_offset_lt h1
    rcases readBytes_shape bytes o1 len with ⟨e2, h2⟩ | ⟨bs, h2⟩ <;>
      rw [h2] at h <;> simp only [bind, Except.bind, pure, Except.pure] at h
    · exact Except.noConfusion h
    · injection h with h'
      have ho := (Prod.mk.injEq _ _ _ _ ▸ h').2
      omega

/-- A successful `parseEvent` never moves the offset backwards. -/
theorem parseEvent_offset_le {bytes : List Nat} {off : Nat} {opts : ParseOptions}
    {d sb : Nat} {pending : Option (List Nat)}
    {r : MidiEvent × Option (List Nat)} {o : Nat}
    (h : parseEvent bytes off opts d sb pending = .ok (r, o)) : off ≤ o := by
  unfold parseEvent at h
  split at h
  · cases h1 : parseChannelEvent bytes off opts d sb with
    | error e1 => rw [h1] at h; exact Except.noConfusion h
    | ok p1 =>
      obtain ⟨ev, o1⟩ := p1
      rw [h1] at h
      injection h with h'
      have ho := (Prod.mk.injEq _ _ _ _ ▸ h').2
      have := parseChannelEvent_offset_le h1
      omega
  split at h
  · cases h1 : parseMetaEvent bytes off d with
    | error e1 => rw [h1] at h; exact Except.noConfusion h
    | ok p1 =>
      obtain ⟨ev, o1⟩ := p1
      rw [h1] at h
      injection h with h'
      have ho := (Prod.mk.injEq _ _ _ _ ▸ h').2
      have := parseMetaEvent_offset_le h1
      omega
  split at h
  · cases h1 : parseSysExEvent bytes off d sb pending with
    | error e1 => rw [h1] at h; exact Except.noConfusion h
    | ok p1 =>
      obtain ⟨ev, o1⟩ := p1
      rw [h1] at h
      injection h with h'
      have ho := (Prod.mk.injEq _ _ _ _ ▸ h').2
      have := parseSysExEvent_offset_le h1
      omega
  · exact Except.noConfusion h

/-- A successful loop-body run strictly advances the offset: at least the
one delta byte is always consumed. -/
theorem trackBody_offset_lt {bytes : List Nat} {opts : ParseOptions}
    {off : Nat} {rs : Option Nat} {pending : Option (List Nat)}
    {ev : MidiEvent} {o : Nat} {rs' : Option Nat} {pending' : Option (List Nat)}
    (h : trackBody bytes opts off rs pending = .ok (ev, o, rs', pending')) :
    off < o := by
  unfold trackBody at h
  cases h1 : readVariableLengthQuantity bytes off with
  | error e1 => rw [h1] at h; exact Except.noConfusion h
  | ok p1 =>
    obtain ⟨d, o1⟩ := p1
    rw [h1] at h
    simp only [bind, Except.bind] at h
    have hlt := readVLQ_offset_lt h1
    cases h2 : viewGetUint8 bytes o1 with
    | error e2 => rw [h2] at h; exact Except.noConfusion h
    | ok peek =>
      rw [h2] at h
      simp only [bind, Except.bind] at h
      by_cases hp : peek < 0x80 <;> simp only [hp, if_true, if_false, reduceIte] at h
      · cases rs with
        | none => simp only [throw, throwThe, MonadExceptOf.throw] at h; exact Except.noConfusion h
        | some s =>
          simp only [pure, Except.pure] at h
          cases h3 : parseEvent bytes o1 opts d s pending with
          | error e3 => rw [h3] at h; exact Except.noConfusion h
          | ok p3 =>
            obtain ⟨⟨ev3, att⟩, o3⟩ := p3
            rw [h3] at h
            simp only [bind, Except.bind, pure, Except.pure] at h
            injection h with h'
            have ho := (Prod.mk.injEq _ _ _ _ ▸ h').2
            have ho2 : o3 = o := (Prod.mk.injEq _ _ _ _ ▸ ho).1
            have := parseEvent_offset_le h3
            omega
      · simp only [pure, Except.pure] at h
        cases h3 : parseEvent bytes (o1 + 1) opts d peek pending with
        | error e3 => rw [h3] at h; exact Except.noConfusion h
        | ok p3 =>
          obtain ⟨⟨ev3, att⟩, o3⟩ := p3
          rw [h3] at h
          simp only [bind, Except.bind, pure, Except.pure] at h
          injection h with h'
          have ho := (Prod.mk.injEq _ _ _ _ ▸ h').2
          have ho2 : o3 = o := (Prod.mk.injEq _ _ _ _ ▸ ho).1
          have := parseEvent_offset_le h3
          omega

/-- One unit of extra fuel is irrelevant once the fuel covers the bytes
remaining up to `trackEnd`. -/
theorem trackLoop_fuel_succ {bytes : List Nat} {opts : ParseOptions}
    {trackEnd : Nat} :
    ∀ {fuel offset rs pend events}, trackEnd - offset ≤ fuel →
      trackLoop bytes opts trackEnd (fuel + 1) offset rs pend events
        = trackLoop bytes opts trackEnd fuel offset rs pend events := by
  intro fuel
  induction fuel with
  | zero =>
    intro offset rs pend events hle
    have hnlt : ¬ offset < trackEnd := by omega
    simp [trackLoop, hnlt]
  | succ fuel ih =>
    intro offset rs pend events hle
    simp only [trackLoop]
    by_cases hlt : offset < trackEnd
    · simp only [hlt, if_true]
      cases hb : trackBody bytes opts offset rs pend with
      | error e => rfl
      | ok q =>
        obtain ⟨ev, o', rs', pend'⟩ := q
        dsimp only
        by_cases he : isEndOfTrack ev
        · simp [he]
        · simp only [he, Bool.false_eq_true, if_false]
          have := trackBody_offset_lt hb
          exact ih (by omega)
    · simp only [hlt, if_false]

/-- Any two fuels covering the remaining bytes yield the same loop result:
the fuel `trackLength + 1` used in `parseTrack` is immaterial, matching
the unfueled source loop. -/
theorem trackLoop_fuel_sufficient {bytes : List Nat} {opts : ParseOptions}
    {trackEnd : Nat} {fuel₁ fuel₂ offset : Nat} {rs : Option Nat}
    {pend : Option (List Nat)} {events : List MidiEvent}
    (h₁ : trackEnd - offset ≤ fuel₁) (h₂ : trackEnd - offset ≤ fuel₂) :
    trackLoop bytes opts trackEnd fuel₁ offset rs pend events
      = trackLoop bytes opts trackEnd fuel₂ offset rs pend events := by
  have step : ∀ k, trackLoop bytes opts trackEnd ((trackEnd - offset) + k) offset rs pend events
      = trackLoop bytes opts trackEnd (trackEnd - offset) offset rs pend events := by
    intro k
    induction k with
    | zero => rfl
    | succ k ih =>
      have harr : (trackEnd - offset) + (k + 1) = ((trackEnd - offset) + k) + 1 := rfl
      rw [harr, trackLoop_fuel_succ (by omega), ih]
  have e₁ := step (fuel₁ - (trackEnd - offset))
  have e₂ := step (fuel₂ - (trackEnd - offset))
  rw [Nat.add_sub_cancel' h₁] at e₁
  rw [Nat.add_sub_cancel' h₂] at e₂
  exact e₁.trans e₂.symm

/-! Claim theorems. -/

/-- C5: for the tempo map [(0,500000),(480,400000)] with ppq 480,
`ticksToMs_PPQ 960` is exactly 900 milliseconds; an empty tempo map gives
the `EmptyTempoMap` error (for any positive ppq), and any `ppq ≤ 0` gives
the `InvalidPpq` error. -/
theorem c5_tick_integration :
    ticksToMs_PPQ 960 [TempoPoint.mk 0 500000, TempoPoint.mk 480 400000] 480
      = .ok 900 ∧
    (∀ (tick ppq : ℚ), 0 < ppq →
      ticksToMs_PPQ tick [] ppq = .error TickErr.emptyTempoMap) ∧
    (∀ (tick : ℚ) (tempoMap : List TempoPoint) (ppq : ℚ), ppq ≤ 0 →
      ticksToMs_PPQ tick tempoMap ppq = .error TickErr.invalidPpq) := by
  refine ⟨?_, ?_, ?_⟩
  · unfold ticksToMs_PPQ
    norm_num
    unfold ticksToMsLoop
    norm_num [ticksToMsLoop]
  · intro tick ppq h
    unfold ticksToMs_PPQ
    rw [if_neg (not_le.mpr h)]
    rfl
  · intro tick tempoMap ppq h
    unfold ticksToMs_PPQ
    rw [if_pos h]

/-- C5 witness: the two hypothesis-bearing parts applied at concrete
inputs. -/
theorem c5_tick_integration_witness :
    ticksToMs_PPQ 5 [] 1 = .error TickErr.emptyTempoMap ∧
    ticksToMs_PPQ 5 [TempoPoint.mk 0 1] 0 = .error TickErr.invalidPpq :=
  ⟨c5_tick_integration.2.1 5 1 (by norm_num),
   c5_tick_integration.2.2 5 [TempoPoint.mk 0 1] 0 (by norm_num)⟩

/-- C6: `readVariableLengthQuantity` accumulates `(value <<< 7) ||| (byte
&&& 0x7F)`, returning as soon as a byte's high bit is clear, and fails
with the VLQ-too-long `MidiParseError` when the first four bytes all have
the continuation bit set; redundantly padded encodings decode mechanically
(0x80 0x81 0x00 gives 128, both 0x00 and 0x80 0x80 0x80 0x00 give 0). -/
theorem c6_vlq_decoding :
    readVariableLengthQuantity [0x80, 0x81, 0x00] 0 = .ok (128, 3) ∧
    readVariableLengthQuantity [0x00] 0 = .ok (0, 1) ∧
    readVariableLengthQuantity [0x80, 0x80, 0x80, 0x00] 0 = .ok (0, 4) ∧
    (∀ (bytes : List Nat) (off b o₁ : Nat),
      readUint8 bytes off = .ok (b, o₁) → b &&& 0x80 = 0 →
      readVariableLengthQuantity bytes off = .ok ((0 <<< 7) ||| (b &&& 0x7f), o₁)) ∧
    (∀ (bytes : List Nat) (i off v b o₁ : Nat),
      readUint8 bytes off = .ok (b, o₁) → b &&& 0x80 ≠ 0 →
      readVLQaux bytes (i + 1) off v
        = readVLQaux bytes i o₁ ((v <<< 7) ||| (b &&& 0x7f))) ∧
    (∀ (bytes : List Nat) (off b₀ b₁ b₂ b₃ : Nat),
      readUint8 bytes off = .ok (b₀, off + 1) → b₀ &&& 0x80 ≠ 0 →
      readUint8 bytes (off + 1) = .ok (b₁, off + 2) → b₁ &&& 0x80 ≠ 0 →
      readUint8 bytes (off + 2) = .ok (b₂, off + 3) → b₂ &&& 0x80 ≠ 0 →
      readUint8 bytes (off + 3) = .ok (b₃, off + 4) → b₃ &&& 0x80 ≠ 0 →
      readVariableLengthQuantity bytes off
        = .error (.midiParseError ("VLQ too long (over 4 bytes)") (off + 4))) := by
  refine ⟨by rfl, by rfl, by rfl, ?_, ?_, ?_⟩
  · intro bytes off b o₁ h hb
    unfold readVariableLengthQuantity readVLQaux
    rw [h]
    dsimp only
    rw [if_pos hb]
  · intro bytes i off v b o₁ h hb
    conv_lhs => unfold readVLQaux
    rw [h]
    dsimp only
    rw [if_neg hb]
  · intro bytes off b₀ b₁ b₂ b₃ h₀ hb₀ h₁ hb₁ h₂ hb₂ h₃ hb₃
    unfold readVariableLengthQuantity
    unfold readVLQaux
    rw [h₀]
    dsimp only
    rw [if_neg hb₀]
    unfold readVLQaux
    rw [h₁]
    dsimp only
    rw [if_neg hb₁]
    unfold readVLQaux
    rw [h₂]
    dsimp only
    rw [if_neg hb₂]
    unfold readVLQaux
    rw [h₃]
    dsimp only
    rw [if_neg hb₃]
    rfl

/-- C6 witness: the hypothesis-bearing parts applied at concrete byte
lists. -/
theorem c6_vlq_decoding_witness :
    readVariableLengthQuantity [0x05] 0 = .ok ((0 <<< 7) ||| (0x05 &&& 0x7f), 1) ∧
    readVLQaux [0x81, 0x00] 2 0 0 = readVLQaux [0x81, 0x00] 1 1 ((0 <<< 7) ||| (0x81 &&& 0x7f)) ∧
    readVariableLengthQuantity [0x80, 0x80, 0x80, 0x80] 0
      = .error (.midiParseError ("VLQ too long (over 4 bytes)") 4) :=
  ⟨c6_vlq_decoding.2.2.2.1 [0x05] 0 0x05 1 (by rfl) (by decide),
   c6_vlq_decoding.2.2.2.2.1 [0x81, 0x00] 1 0 0 0x81 1 (by rfl) (by decide),
   c6_vlq_decoding.2.2.2.2.2 [0x80, 0x80, 0x80, 0x80] 0 0x80 0x80 0x80 0x80
     (by rfl) (by decide) (by rfl) (by decide) (by rfl) (by decide) (by rfl) (by decide)⟩

/-- C1 counterexample: with default parse options the velocity-0 Note-On
is returned as subtype noteOff with velocity 64 — it is NOT kept as a
noteOn with velocity 0, because `normalizeZeroVelocityNoteOn` defaults to
true, not false. -/
theorem c1_counterexample :
    parseMidiDefault c1Bytes
      = .ok (MidiFile.mk 0
          [MidiTrack.mk
            [MidiEvent.channel (ChannelEvent.noteOff 0 0 0x40 64),
             MidiEvent.meta eotEvent]]
          (some 480) none) := by
  rfl

/-- C1 (amended): with default options (`normalizeZeroVelocityNoteOn` not
supplied, hence true) a Note-On whose velocity byte is 0 is normalized to
a noteOff with velocity 64; only when the option is explicitly false is it
returned as a noteOn with velocity 0. -/
theorem c1_default_normalization :
    ∀ (bytes : List Nat) (off d sb note o₁ o₂ : Nat),
      (sb &&& 0xf0) >>> 4 = 9 →
      readUint8 bytes off = .ok (note, o₁) →
      readUint8 bytes o₁ = .ok (0, o₂) →
      parseChannelEvent bytes off (resolveOpts emptyOptions) d sb
        = .ok (.noteOff d (sb &&& 0x0f) note 64, o₂) ∧
      parseChannelEvent bytes off (resolveOpts ⟨some false, none⟩) d sb
        = .ok (.noteOn d (sb &&& 0x0f) note 0, o₂) := by
  intro bytes off d sb note o₁ o₂ h9 h1 h2
  refine ⟨?_, ?_⟩ <;>
    (unfold parseChannelEvent
     dsimp only
     rw [h9]
     dsimp only
     rw [h1]
     dsimp only
     rw [h2]
     dsimp only)
  · rw [if_pos ⟨rfl, rfl⟩]
  · rw [if_neg (by decide)]

/-- C1 witness: the amended theorem applied at status 0x90, note 0x40 and
velocity byte 0. -/
theorem c1_default_normalization_witness :
    parseChannelEvent [0x40, 0] 0 (resolveOpts emptyOptions) 0 0x90
      = .ok (.noteOff 0 (0x90 &&& 0x0f) 0x40 64, 2) ∧
    parseChannelEvent [0x40, 0] 0 (resolveOpts ⟨some false, none⟩) 0 0x90
      = .ok (.noteOn 0 (0x90 &&& 0x0f) 0x40 0, 2) :=
  c1_default_normalization [0x40, 0] 0 0 0x90 0x40 1 2 (by decide) (by rfl) (by rfl)

/-- C4 counterexample: the declared-empty track chunk parses to a track
with an EMPTY event list — no End-of-Track meta event is synthesized, so
the non-emptiness invariant fails. -/
theorem c4_counterexample :
    parseMidiDefault c4Bytes
      = .ok (MidiFile.mk 0 [MidiTrack.mk []] (some 480) none) := by
  rfl

/-- C4 (amended): a track chunk whose declared 32-bit length is 0 parses
without error to a track whose event list is empty; an End-of-Track event
is present only when actually encoded before the chunk boundary, so
parsed tracks are not always non-empty. -/
theorem c4_declared_empty_track :
    ∀ (bytes : List Nat) (opts : ParseOptions) (off o₁ o₂ : Nat),
      readString bytes off 4 = .ok ("MTrk", o₁) →
      readUint32 bytes o₁ = .ok (0, o₂) →
      parseTrack bytes opts off = .ok (MidiTrack.mk [], o₂) := by
  intro bytes opts off o₁ o₂ h1 h2
  unfold parseTrack
  rw [h1]
  simp only [bind, Except.bind, ne_eq, not_true_eq_false, reduceIte]
  rw [h2]
  simp only [bind, Except.bind]
  simp [trackLoop, pure, Except.pure]

/-- C4 witness: the amended theorem applied to the raw 8-byte empty
chunk. -/
theorem c4_declared_empty_track_witness :
    parseTrack [0x4d, 0x54, 0x72, 0x6b, 0, 0, 0, 0] (resolveOpts emptyOptions) 0
      = .ok (MidiTrack.mk [], 8) :=
  c4_declared_empty_track [0x4d, 0x54, 0x72, 0x6b, 0, 0, 0, 0]
    (resolveOpts emptyOptions) 0 4 8 (by rfl) (by rfl)

/-- C3 counterexample: on this truncated input the parse fails at the
status-byte peek with a raw out-of-range view access (the `RangeError` of
`DataView.getUint8`), not with the offset-and-length-carrying
UnexpectedEndOfData `MidiParseError`: that peek is not preceded by a
bounds check. -/
theorem c3_counterexample :
    parseMidiDefault c3Bytes = .error (ParseErr.rangeError 23) ∧
    (ParseErr.rangeError 23).isMidiParseError = false := by
  exact ⟨by rfl, by rfl⟩

/-- C3 (amended): every read that goes through the cursor helpers
(`readUint8`/`readUint16`/`readUint32`/`readBytes`, hence every VLQ byte
and every header field) is bounds-checked and fails with the
offset-carrying UnexpectedEOF `MidiParseError` when insufficient bytes
remain; the one-byte status peek in the track loop, however, reads the
view directly without a bounds check, and when no byte remains there the
parse fails with a raw range error instead. -/
theorem c3_bounds_checks :
    (∀ (bytes : List Nat) (off : Nat), bytes.length ≤ off →
      readUint8 bytes off
        = .error (.midiParseError ("Unexpected EOF: need 1 bytes") off)) ∧
    (∀ (bytes : List Nat) (off : Nat), bytes.length - off < 2 →
      readUint16 bytes off
        = .error (.midiParseError ("Unexpected EOF: need 2 bytes") off)) ∧
    (∀ (bytes : List Nat) (off : Nat), bytes.length - off < 4 →
      readUint32 bytes off
        = .error (.midiParseError ("Unexpected EOF: need 4 bytes") off)) ∧
    (∀ (bytes : List Nat) (off n : Nat), bytes.length - off < n →
      readBytes bytes off n
        = .error (.midiParseError ("Unexpected EOF: need " ++ toString n ++ " bytes") off)) ∧
    (∀ (bytes : List Nat) (opts : ParseOptions) (off : Nat) (rs : Option Nat)
        (pend : Option (List Nat)) (d o₁ : Nat),
      readVariableLengthQuantity bytes off = .ok (d, o₁) → bytes.length ≤ o₁ →
      trackBody bytes opts off rs pend = .error (.rangeError o₁)) := by
  refine ⟨?_, ?_, ?_, ?_, ?_⟩
  · intro bytes off h
    unfold readUint8 ensureAvailable
    rw [if_pos (by omega)]
    rfl
  · intro bytes off h
    unfold readUint16 ensureAvailable
    rw [if_pos (by omega)]
    rfl
  · intro bytes off h
    unfold readUint32 ensureAvailable
    rw [if_pos (by omega)]
    rfl
  · intro bytes off n h
    unfold readBytes ensureAvailable
    rw [if_pos (by omega)]
  · intro bytes opts off rs pend d o₁ hvlq hlen
    unfold trackBody
    rw [hvlq]
    simp only [bind, Except.bind]
    unfold viewGetUint8
    rw [List.get?_eq_none.mpr hlen]

/-- C3 witness: the amended theorem applied at concrete truncated
inputs. -/
theorem c3_bounds_checks_witness :
    readUint8 [] 0 = .error (.midiParseError ("Unexpected EOF: need 1 bytes") 0) ∧
    readUint16 [7] 0 = .error (.midiParseError ("Unexpected EOF: need 2 bytes") 0) ∧
    readUint32 [7] 0 = .error (.midiParseError ("Unexpected EOF: need 4 bytes") 0) ∧
    readBytes [7] 0 3 = .error (.midiParseError ("Unexpected EOF: need " ++ toString 3 ++ " bytes") 0) ∧
    trackBody [0x00] (resolveOpts emptyOptions) 0 none none
      = .error (.rangeError 1) :=
  ⟨c3_bounds_checks.1 [] 0 (by decide),
   c3_bounds_checks.2.1 [7] 0 (by decide),
   c3_bounds_checks.2.2.1 [7] 0 (by decide),
   c3_bounds_checks.2.2.2.1 [7] 0 3 (by decide),
   c3_bounds_checks.2.2.2.2 [0x00] (resolveOpts emptyOptions) 0 none none 0 1
     (by rfl) (by decide)⟩

/-- C9 counterexample: a bad magic tag aborts the parse with a plain
`Error` that carries NO byte offset — it is not raised through the
offset-carrying `MidiParseError` class, contradicting the claim that
every error carries the offset at which it was detected. -/
theorem c9_counterexample :
    parseMidiDefault c9BadMagicBytes
      = .error (ParseErr.plainError ("Invalid MIDI file: missing MThd header")) ∧
    (ParseErr.plainError ("Invalid MIDI file: missing MThd header")).isMidiParseError
      = false := by
  exact ⟨by rfl, by rfl⟩

/-- C9 (amended): only the UnexpectedEOF and VLQ-too-long conditions are
raised through the offset-carrying `MidiParseError` class; bad magic tags
(header and track), wrong header length, unsupported format, unsupported
event status and running-status-without-context are raised as plain
`Error` values without an offset. -/
theorem c9_error_offsets :
    parseMidiDefault c9BadMagicBytes
      = .error (.plainError ("Invalid MIDI file: missing MThd header")) ∧
    parseMidiDefault c9BadLengthBytes
      = .error (.plainError ("Invalid MIDI header length")) ∧
    parseMidiDefault c9Format3Bytes
      = .error (.plainError ("Unsupported MIDI format: 3")) ∧
    parseMidiDefault c9BadTrackMagicBytes
      = .error (.plainError ("Invalid track chunk: missing MTrk header")) ∧
    parseMidiDefault c9StatusF1Bytes
      = .error (.plainError ("Unsupported event status: 0xf1")) ∧
    parseMidiDefault c9NoStatusBytes
      = .error (.plainError ("Running status used without previous status")) ∧
    parseMidiDefault []
      = .error (.midiParseError ("Unexpected EOF: need 4 bytes") 0) ∧
    parseMidiDefault c9VlqTooLongBytes
      = .error (.midiParseError ("VLQ too long (over 4 bytes)") 26) := by
  exact ⟨by rfl, by rfl, by rfl, by rfl, by rfl, by rfl, by rfl, by rfl⟩

/-- C7: an 0xF0 fragment `[0x43, 0x12]` followed in the same track by an
0xF7 fragment `[0x00, 0x43, 0xF7]` exposes the second event's data as the
5-byte concatenation; in general an 0xF0 payload becomes the pending
buffer and an 0xF7 event's data is the pending buffer concatenated with
its own payload (which also becomes the new pending buffer), so every
SysEx event's data is cumulative from the start of the current message. -/
theorem c7_sysex_reassembly :
    (parseMidiDefault c7Bytes
      = .ok (MidiFile.mk 0
          [MidiTrack.mk
            [MidiEvent.sysex (SysExEvent.mk 0 0xf0 [0x43, 0x12]),
             MidiEvent.sysex (SysExEvent.mk 0 0xf7 [0x43, 0x12, 0x00, 0x43, 0xf7]),
             MidiEvent.meta eotEvent]]
          (some 480) none)) ∧
    (∀ (bytes : List Nat) (off d len o₁ : Nat) (payload : List Nat) (o₂ : Nat),
      readVariableLengthQuantity bytes off = .ok (len, o₁) →
      readBytes bytes o₁ len = .ok (payload, o₂) →
      (∀ pending : Option (List Nat),
        parseSysExEvent bytes off d 0xf0 pending
          = .ok ((SysExEvent.mk d 0xf0 payload, some payload), o₂)) ∧
      (∀ p : List Nat,
        parseSysExEvent bytes off d 0xf7 (some p)
          = .ok ((SysExEvent.mk d 0xf7 (p ++ payload), some (p ++ payload)), o₂)) ∧
      parseSysExEvent bytes off d 0xf7 none
        = .ok ((SysExEvent.mk d 0xf7 payload, some payload), o₂)) := by
  refine ⟨by rfl, ?_⟩
  intro bytes off d len o₁ payload o₂ h1 h2
  refine ⟨?_, ?_, ?_⟩
  · intro pending
    unfold parseSysExEvent
    rw [h1]
    simp only [bind, Except.bind]
    rw [h2]
    simp only [bind, Except.bind, pure, Except.pure]
    rfl
  · intro p
    unfold parseSysExEvent
    rw [h1]
    simp only [bind, Except.bind]
    rw [h2]
    simp only [bind, Except.bind, pure, Except.pure]
    rfl
  · unfold parseSysExEvent
    rw [h1]
    simp only [bind, Except.bind]
    rw [h2]
    simp only [bind, Except.bind, pure, Except.pure]
    rfl

/-- C7 witness: the general fragment lemma applied to the byte image
`[0x03, 0x00, 0x43, 0xF7]` with pending buffer `[0x43, 0x12]`. -/
theorem c7_sysex_reassembly_witness :
    parseSysExEvent [0x03, 0x00, 0x43, 0xf7] 0 0 0xf0 none
      = .ok ((SysExEvent.mk 0 0xf0 [0x00, 0x43, 0xf7], some [0x00, 0x43, 0xf7]), 4) ∧
    parseSysExEvent [0x03, 0x00, 0x43, 0xf7] 0 0 0xf7 (some [0x43, 0x12])
      = .ok ((SysExEvent.mk 0 0xf7 ([0x43, 0x12] ++ [0x00, 0x43, 0xf7]),
              some ([0x43, 0x12] ++ [0x00, 0x43, 0xf7])), 4) ∧
    parseSysExEvent [0x03, 0x00, 0x43, 0xf7] 0 0 0xf7 none
      = .ok ((SysExEvent.mk 0 0xf7 [0x00, 0x43, 0xf7], some [0x00, 0x43, 0xf7]), 4) :=
  ⟨(c7_sysex_reassembly.2 [0x03, 0x00, 0x43, 0xf7] 0 0 3 1 [0x00, 0x43, 0xf7] 4
      (by rfl) (by rfl)).1 none,
   (c7_sysex_reassembly.2 [0x03, 0x00, 0x43, 0xf7] 0 0 3 1 [0x00, 0x43, 0xf7] 4
      (by rfl) (by rfl)).2.1 [0x43, 0x12],
   (c7_sysex_reassembly.2 [0x03, 0x00, 0x43, 0xf7] 0 0 3 1 [0x00, 0x43, 0xf7] 4
      (by rfl) (by rfl)).2.2⟩

/-- C8: a sub-0x80 leading byte reuses the stored running status (the
track `0x90 0x40 0x7F` then `0x30 0x44` decodes a second Note-On on the
same channel), the same pattern with no prior status fails with the
running-status error, and a successful loop iteration whose status byte
is at least 0xF0 leaves the stored running status unchanged. -/
theorem c8_running_status :
    (parseMidiDefault c8Bytes
      = .ok (MidiFile.mk 0
          [MidiTrack.mk
            [MidiEvent.channel (ChannelEvent.noteOn 0 0 0x40 0x7f),
             MidiEvent.channel (ChannelEvent.noteOn 0 0 0x30 0x44),
             MidiEvent.meta (MetaEvent.mk 0x60 0x2f [] none none none none true)]]
          (some 480) none)) ∧
    (parseMidiDefault c8NoContextBytes
      = .error (.plainError ("Running status used without previous status"))) ∧
    (∀ (bytes : List Nat) (opts : ParseOptions) (off : Nat)
        (pend : Option (List Nat)) (d o₁ b : Nat),
      readVariableLengthQuantity bytes off = .ok (d, o₁) →
      viewGetUint8 bytes o₁ = .ok b → b < 0x80 →
      trackBody bytes opts off none pend
        = .error (.plainError ("Running status used without previous status"))) ∧
    (∀ (bytes : List Nat) (opts : ParseOptions) (off s : Nat)
        (pend : Option (List Nat)) (d o₁ b : Nat),
      readVariableLengthQuantity bytes off = .ok (d, o₁) →
      viewGetUint8 bytes o₁ = .ok b → b < 0x80 →
      trackBody bytes opts off (some s) pend
        = match parseEvent bytes o₁ opts d s pend with
          | .error e => .error e
          | .ok ((ev, att), o₂) => .ok (ev, o₂, some s, nextPendingAfter ev att)) ∧
    (∀ (bytes : List Nat) (opts : ParseOptions) (off : Nat) (rs : Option Nat)
        (pend : Option (List Nat)) (d o₁ b : Nat) (ev : MidiEvent) (o' : Nat)
        (rs' : Option Nat) (pend' : Option (List Nat)),
      readVariableLengthQuantity bytes off = .ok (d, o₁) →
      viewGetUint8 bytes o₁ = .ok b → 0xf0 ≤ b →
      trackBody bytes opts off rs pend = .ok (ev, o', rs', pend') →
      rs' = rs) := by
  refine ⟨by rfl, by rfl, ?_, ?_, ?_⟩
  · intro bytes opts off pend d o₁ b h1 h2 hb
    unfold trackBody
    rw [h1]
    simp only [bind, Except.bind]
    rw [h2]
    simp only [bind, Except.bind]
    rw [if_pos hb]
  · intro bytes opts off s pend d o₁ b h1 h2 hb
    unfold trackBody
    rw [h1]
    simp only [bind, Except.bind]
    rw [h2]
    simp only [bind, Except.bind]
    rw [if_pos hb]
    simp only [pure, Except.pure, bind, Except.bind]
    cases hpe : parseEvent bytes o₁ opts d s pend with
    | error e => rfl
    | ok p =>
      obtain ⟨⟨ev, att⟩, o₂⟩ := p
      rfl
  · intro bytes opts off rs pend d o₁ b ev o' rs' pend' h1 h2 hb htb
    unfold trackBody at htb
    rw [h1] at htb
    simp only [bind, Except.bind] at htb
    rw [h2] at htb
    simp only [bind, Except.bind] at htb
    rw [if_neg (by omega)] at htb
    simp only [pure, Except.pure, bind, Except.bind] at htb
    rw [if_neg (by omega)] at htb
    cases hpe : parseEvent bytes (o₁ + 1) opts d b pend with
    | error e => rw [hpe] at htb; exact Except.noConfusion htb
    | ok p =>
      obtain ⟨⟨ev₀, att⟩, o₂⟩ := p
      rw [hpe] at htb
      simp only at htb
      injection htb with h'
      have h₂ := (Prod.mk.injEq _ _ _ _ ▸ h').2
      have h₃ := (Prod.mk.injEq _ _ _ _ ▸ h₂).2
      exact ((Prod.mk.injEq _ _ _ _ ▸ h₃).1).symm

/-- C8 witness: the three hypothesis-bearing parts applied to concrete
byte images. -/
theorem c8_running_status_witness :
    trackBody [0x00, 0x30, 0x44] (resolveOpts emptyOptions) 0 none none
      = .error (.plainError ("Running status used without previous status")) ∧
    trackBody [0x00, 0x30, 0x44] (resolveOpts emptyOptions) 0 (some 0x90) none
      = (match parseEvent [0x00, 0x30, 0x44] 1 (resolveOpts emptyOptions) 0 0x90 none with
         | .error e => .error e
         | .ok ((ev, att), o₂) => .ok (ev, o₂, some 0x90, nextPendingAfter ev att)) ∧
    (some 0x90 : Option Nat) = some 0x90 :=
  ⟨c8_running_status.2.2.1 [0x00, 0x30, 0x44] (resolveOpts emptyOptions) 0 none 0 1 0x30
     (by rfl) (by rfl) (by decide),
   c8_running_status.2.2.2.1 [0x00, 0x30, 0x44] (resolveOpts emptyOptions) 0 0x90 none 0 1 0x30
     (by rfl) (by rfl) (by decide),
   c8_running_status.2.2.2.2 [0x00, 0xff, 0x2f, 0x00] (resolveOpts emptyOptions) 0
     (some 0x90) none 0 1 0xff
     (MidiEvent.meta (MetaEvent.mk 0 0x2f [] none none none none true)) 4 (some 0x90) none
     (by rfl) (by rfl) (by decide) (by rfl)⟩

/-- Taking one element preserves the optional head. -/
theorem head?_take_one {α : Type} (l : List α) : (l.take 1).head? = l.head? := by
  cases l <;> rfl

/-- C2 counterexample: on this format-1 document, calling `buildTempoMap`
without a source argument picks up the tempo event of track 1 — so the
default scan is NOT limited to track 0 for format 1 (a track-0-only scan
would instead synthesize the default 500000). -/
theorem c2_counterexample :
    buildTempoMapDefault exFmt1 = [TempoPoint.mk 0 400000] ∧
    buildTempoMap exFmt1 TempoSource.track0 = [TempoPoint.mk 0 500000] := by
  exact ⟨by rfl, by rfl⟩

/-- C2 (amended): the `source` parameter defaults to `"all"`, not to a
format-matched value: with no source argument a format-1 document scans
ALL tracks (exactly as a format-0 document does), a format-0 document
scans all tracks, and a format-2 document scans only track 0. -/
theorem c2_default_source :
    ∀ midi : MidiFile,
      (midi.format = 1 →
        buildTempoMapDefault midi
          = finishTempoMap ((midi.tracks.map tempoPointsOfTrack).flatten) ∧
        buildTempoMapDefault midi
          = buildTempoMapDefault
              (MidiFile.mk 0 midi.tracks midi.ticksPerQuarter midi.smpte)) ∧
      (midi.format = 0 →
        buildTempoMapDefault midi
          = finishTempoMap ((midi.tracks.map tempoPointsOfTrack).flatten)) ∧
      (midi.format = 2 →
        buildTempoMapDefault midi
          = finishTempoMap
              (match midi.tracks.head? with
               | some t => tempoPointsOfTrack t
               | none => [])) := by
  intro midi
  refine ⟨fun h => ⟨?_, ?_⟩, fun h => ?_, fun h => ?_⟩
  · simp [buildTempoMapDefault, buildTempoMap, h]
  · simp [buildTempoMapDefault, buildTempoMap, h]
  · simp [buildTempoMapDefault, buildTempoMap, h]
  · simp [buildTempoMapDefault, buildTempoMap, h]

/-- C2 witness: the amended theorem applied to concrete documents of each
format. -/
theorem c2_default_source_witness :
    buildTempoMapDefault exFmt1
      = finishTempoMap ((exFmt1.tracks.map tempoPointsOfTrack).flatten) ∧
    buildTempoMapDefault exFmt1
      = buildTempoMapDefault
          (MidiFile.mk 0 exFmt1.tracks exFmt1.ticksPerQuarter exFmt1.smpte) ∧
    buildTempoMapDefault (MidiFile.mk 0 exFmt1.tracks (some 480) none)
      = finishTempoMap
          ((((MidiFile.mk 0 exFmt1.tracks (some 480) none)).tracks.map tempoPointsOfTrack).flatten) ∧
    buildTempoMapDefault (MidiFile.mk 2 exFmt1.tracks (some 480) none)
      = finishTempoMap
          (match (MidiFile.mk 2 exFmt1.tracks (some 480) none).tracks.head? with
           | some t => tempoPointsOfTrack t
           | none => []) :=
  ⟨(c2_default_source exFmt1).1 rfl |>.1,
   (c2_default_source exFmt1).1 rfl |>.2,
   (c2_default_source (MidiFile.mk 0 exFmt1.tracks (some 480) none)).2.1 rfl,
   (c2_default_source (MidiFile.mk 2 exFmt1.tracks (some 480) none)).2.2 rfl⟩

/-- C10: the `source` argument can only matter for format-1 documents:
for a format-0 document the result is the same for every source value
(all tracks are scanned), and for a format-2 document the result is the
same for every source value and depends only on track 0. -/
theorem c10_source_only_format1 :
    ∀ (midi : MidiFile) (s s' : TempoSource),
      (midi.format = 0 → buildTempoMap midi s = buildTempoMap midi s') ∧
      (midi.format = 2 →
        buildTempoMap midi s = buildTempoMap midi s' ∧
        buildTempoMap midi s
          = buildTempoMap
              (MidiFile.mk midi.format (midi.tracks.take 1)
                midi.ticksPerQuarter midi.smpte) s) := by
  intro midi s s'
  refine ⟨fun h => ?_, fun h => ⟨?_, ?_⟩⟩
  · simp [buildTempoMap, h]
  · simp [buildTempoMap, h]
  · simp only [buildTempoMap, h]
    norm_num
    rw [head?_take_one]

/-- C10 witness: the theorem applied to concrete format-0 and format-2
documents with differing sources. -/
theorem c10_source_only_format1_witness :
    buildTempoMap (MidiFile.mk 0 exFmt1.tracks (some 480) none) TempoSource.all
      = buildTempoMap (MidiFile.mk 0 exFmt1.tracks (some 480) none) TempoSource.track0 ∧
    buildTempoMap (MidiFile.mk 2 exFmt1.tracks (some 480) none) TempoSource.merge
      = buildTempoMap (MidiFile.mk 2 exFmt1.tracks (some 480) none) TempoSource.track0 ∧
    buildTempoMap (MidiFile.mk 2 exFmt1.tracks (some 480) none) TempoSource.merge
      = buildTempoMap
          (MidiFile.mk 2 (exFmt1.tracks.take 1) (some 480) none) TempoSource.merge :=
  ⟨(c10_source_only_format1 (MidiFile.mk 0 exFmt1.tracks (some 480) none)
      TempoSource.all TempoSource.track0).1 rfl,
   ((c10_source_only_format1 (MidiFile.mk 2 exFmt1.tracks (some 480) none)
      TempoSource.merge TempoSource.track0).2 rfl).1,
   ((c10_source_only_format1 (MidiFile.mk 2 exFmt1.tracks (some 480) none)
      TempoSource.merge TempoSource.track0).2 rfl).2⟩

end Tssmf
